import Mathlib

/-!
Shallow embedding of the skin-type-classifier web service (src/a.py).

The service is a single Flask module: an Image Normalizer (preprocess_image),
a Classifier Adapter (ensure_model_file, get_model, and the argmax-to-label
step of predict), a Record Sink (the conditional Firestore write inside
predict), and the Request Handler (predict, with the routes index and
health and the method-based dispatch of Flask).

External collaborators (PIL decoding, the HTTP download, Keras load_model,
the predict method of the loaded Keras model, and the Firestore write) are
represented by a per-request World of oracles: each oracle yields either a
value or the message of the exception it raises, so the try/except of the
handler can be embedded as explicit case analysis.  Python exceptions are
Except String values; Python truthiness of the uid query parameter is made
explicit.  A List Action trace records which effectful steps a run
performed, so that statements such as "no inference occurred" or "no
persistence write occurred" are provable.
-/

namespace Skin

/-- An 8-bit RGB pixel, as produced by Image.convert(RGB). -/
structure Px where
  r : Fin 256
  g : Fin 256
  b : Fin 256

/-- A decoded bitmap, the result of Image.open(io.BytesIO(...)).convert(RGB);
px i j is the pixel at row i, column j. -/
structure Img where
  width : Nat
  height : Nat
  px : Nat → Nat → Px

/-- Constant IMG_SIZE = (224, 224) from src/a.py line 40. -/
def IMG_SIZE : Nat × Nat := (224, 224)

/-- The fixed label table ["Dry", "Normal", "Oily"] from src/a.py line 39. -/
def labels : List String := ["Dry", "Normal", "Oily"]

/-- Embedding of img.resize((w, h)): produce a w × h bitmap by sampling the
source (PIL resamples; any resampling policy keeps channels in 0..255, which
is all that matters downstream — we fix nearest-neighbour sampling). -/
def Img.resize (img : Img) (w h : Nat) : Img :=
  { width := w
    height := h
    px := fun i j => img.px (i * img.height / h) (j * img.width / w) }

/-- Channels of one pixel scaled by 255, embedding np.array(img) / 255.0
pointwise. -/
def pxToFloats (p : Px) : List ℚ :=
  [(p.r.val : ℚ) / 255, (p.g.val : ℚ) / 255, (p.b.val : ℚ) / 255]

/-- The 4-d array produced by preprocess_image (src/a.py lines 145–150) from
an already-decoded image: resize to IMG_SIZE, scale to [0,1], and
np.expand_dims(img, axis=0) — the outer singleton list. -/
def preprocess_image (img : Img) : List (List (List (List ℚ))) :=
  [(List.range 224).map fun i =>
    (List.range 224).map fun j =>
      pxToFloats ((img.resize 224 224).px i j)]

/-- Input type of the classifier: the shape-(1,224,224,3) array. -/
abbrev Tensor := List (List (List (List ℚ)))

/-- Helper for np.argmax: scan the remaining entries, keeping the current
best value and its index; a strictly greater value replaces the best, so the
first occurrence of the maximum wins, as in NumPy. -/
def argmaxAux : List ℚ → ℚ → Nat → Nat → Nat
  | [], _, _, bestIdx => bestIdx
  | x :: xs, best, i, bestIdx =>
    if best < x then argmaxAux xs x (i + 1) i else argmaxAux xs best (i + 1) bestIdx

/-- Embedding of int(np.argmax(preds)) for a flat prediction vector: index of
the first maximal entry (0 on the empty list, where NumPy instead raises —
callers handle the empty case separately). -/
def argmaxIdx : List ℚ → Nat
  | [] => 0
  | x :: xs => argmaxAux xs x 1 0

/-- Embedding of labels[int(np.argmax(preds))] (src/a.py line 176) with
Python semantics: an out-of-range index raises IndexError, and np.argmax
raises on an empty vector; both surface as Except.error messages. -/
def labelOf (preds : List ℚ) : Except String String :=
  if preds.isEmpty then
    .error "attempt to get argmax of an empty sequence"
  else
    match labels.get? (argmaxIdx preds) with
    | some l => .ok l
    | none => .error "list index out of range"

/-- The in-memory Keras model: its predict method either returns an output
vector or raises. -/
structure Model where
  predict : Tensor → Except String (List ℚ)

/-- The effectful steps a request can perform, recorded as a trace. -/
inductive Action where
  | decode     -- PIL Image.open(...).convert(RGB) inside preprocess_image
  | checkFile  -- os.path.exists(path) and os.path.getsize(path) > 1024
  | download   -- the streamed requests.get plus chunked file write
  | load       -- load_model(MODEL_PATH)
  | infer      -- model.predict(img)
  | write      -- db.collection("users")...add({...})
  deriving DecidableEq

/-- Per-request behaviour of the external collaborators.  Each field is the
outcome the named external call would have on this request; an error value
means the call raises an exception rendering as that message. -/
structure World where
  decode : List Nat → Except String Img
  fileOk : Bool
  download : Except String Unit
  loadModel : Except String Model
  dbWrite : Except String Unit

/-- Process-wide mutable state: the lazy-load container _model (line 41). -/
structure ProcState where
  model : Option Model

/-- Module-level configuration fixed at startup: whether db is a configured
Firestore client (truthy) or None (SA_JSON absent or Firebase init failed). -/
structure Env where
  db : Bool

/-- Embedding of ensure_model_file (src/a.py lines 43–55): if the local
artifact exists and exceeds 1024 bytes, return at once; otherwise
stream-download it, letting any network failure propagate. -/
def ensure_model_file (w : World) : Except String Unit × List Action :=
  if w.fileOk then (.ok (), [.checkFile])
  else
    match w.download with
    | .ok _ => (.ok (), [.checkFile, .download])
    | .error e => (.error e, [.checkFile, .download])

/-- Embedding of get_model (src/a.py lines 57–65): return the memoized
_model if set; otherwise run ensure_model_file, then load_model, memoizing
the handle.  Returns the outcome, the updated process state, and the trace
of external steps performed. -/
def get_model (w : World) (s : ProcState) :
    Except String Model × ProcState × List Action :=
  match s.model with
  | some m => (.ok m, s, [])
  | none =>
    match ensure_model_file w with
    | (.error e, acts) => (.error e, s, acts)
    | (.ok _, acts) =>
      match w.loadModel with
      | .ok m => (.ok m, { model := some m }, acts ++ [.load])
      | .error e => (.error e, s, acts ++ [.load])

/-- Python truthiness of user_id = request.args.get("uid"): None and the
empty string are falsy, every other string is truthy. -/
def truthyUid : Option String → Bool
  | none => false
  | some s => decide (s ≠ "")

/-- The result card rendered on success (src/a.py lines 184–216); CSS
elided, the interpolated parts — the label, and user_id-or-empty-string in
the back link — kept intact. -/
def resultPage (label : String) (uid : Option String) : String :=
  "<!doctype html><html><head><title>GlowCheck Result</title></head><body>" ++
    "<div class=\x22result-card\x22><h3>Your Skin Type: " ++ label ++ "</h3>" ++
    "<a href=\x22/?uid=" ++ uid.getD "" ++ "\x22>Try Another</a></div></body></html>"

/-- The generic error page (src/a.py line 218): the f-string interpolating
str(e) between a fixed heading prefix and a fixed Back anchor to /. -/
def errorPage (e : String) : String :=
  "<h3>Error: " ++ e ++ "</h3><br><a href=\x27/\x27>Back</a>"

/-- The fixed Back anchor that terminates every generic error page. -/
def backAnchor : String := "<a href=\x27/\x27>Back</a>"

/-- An HTTP response: status code and body. -/
structure Response where
  status : Nat
  body : String
  deriving DecidableEq

/-- A redirect response has a 3xx status (the app never produces one). -/
def isRedirect (r : Response) : Bool :=
  decide (300 ≤ r.status) && decide (r.status < 400)

/-- An HTTP request: method, path, multipart files (field name to bytes),
and query args. -/
structure Request where
  method : String
  path : String
  files : List (String × List Nat)
  args : List (String × String)

/-- The POST handler of /predict (src/a.py lines 163–218).  Mirrors the
source line by line: the missing-field guard sits outside the try block;
everything from preprocess_image to the Firestore write and the result
f-string is inside it, and any error outcome falls through to the except
clause, which renders errorPage.  Returns the response, the (possibly
updated) process state, and the trace of external steps performed. -/
def predict (env : Env) (w : World) (s : ProcState) (req : Request) :
    Response × ProcState × List Action :=
  match req.files.lookup "image" with
  | none => (⟨400, "No image uploaded"⟩, s, [])
  | some image_bytes =>
    let user_id := req.args.lookup "uid"
    match w.decode image_bytes with
    | .error e => (⟨200, errorPage e⟩, s, [.decode])
    | .ok img0 =>
      let img := preprocess_image img0
      match get_model w s with
      | (.error e, s1, acts) => (⟨200, errorPage e⟩, s1, .decode :: acts)
      | (.ok model, s1, acts) =>
        match model.predict img with
        | .error e => (⟨200, errorPage e⟩, s1, .decode :: acts ++ [.infer])
        | .ok preds =>
          match labelOf preds with
          | .error e => (⟨200, errorPage e⟩, s1, .decode :: acts ++ [.infer])
          | .ok predicted_label =>
            if env.db && truthyUid user_id then
              match w.dbWrite with
              | .error e =>
                (⟨200, errorPage e⟩, s1, .decode :: acts ++ [.infer, .write])
              | .ok _ =>
                (⟨200, resultPage predicted_label user_id⟩, s1,
                  .decode :: acts ++ [.infer, .write])
            else
              (⟨200, resultPage predicted_label user_id⟩, s1,
                .decode :: acts ++ [.infer])

/-- The entry form route (src/a.py lines 153–156): renders HTML_FORM with
the uid query arg (default empty) substituted into the form action. -/
def index (req : Request) : Response :=
  ⟨200, "<!DOCTYPE html><html><body><form action=\x22/predict?uid=" ++
    ((req.args.lookup "uid").getD "") ++
    "\x22 method=\x22post\x22 enctype=\x22multipart/form-data\x22>" ++
    "<input type=\x22file\x22 name=\x22image\x22 accept=\x22image/*\x22 required>" ++
    "<button type=\x22submit\x22>Analyze</button></form></body></html>"⟩

/-- The /health route (src/a.py lines 159–161). -/
def health : Response := ⟨200, "ok"⟩

/-- Dispatch of Flask over the three registered routes, with their declared
method lists (/ GET, /health GET, /predict POST): a request whose path
matches a route but whose method is not in the list of the route gets the
Flask 405 Method Not Allowed; an unknown path gets 404. -/
def dispatch (env : Env) (w : World) (s : ProcState) (req : Request) :
    Response × ProcState × List Action :=
  if req.path = "/" then
    if req.method = "GET" then (index req, s, [])
    else (⟨405, "Method Not Allowed"⟩, s, [])
  else if req.path = "/health" then
    if req.method = "GET" then (health, s, [])
    else (⟨405, "Method Not Allowed"⟩, s, [])
  else if req.path = "/predict" then
    if req.method = "POST" then predict env w s req
    else (⟨405, "Method Not Allowed"⟩, s, [])
  else (⟨404, "Not Found"⟩, s, [])

/-! ### Concrete fixtures used by witnesses and counterexamples -/

/-- A concrete solid-gray 10×10 bitmap, standing for a decodable upload. -/
def cImg : Img :=
  { width := 10, height := 10
    px := fun _ _ => ⟨⟨128, by decide⟩, ⟨128, by decide⟩, ⟨128, by decide⟩⟩ }

/-- A concrete loaded model whose output vector always selects index 0. -/
def cModel : Model := ⟨fun _ => .ok [1, 0, 0]⟩

/-- A world in which every external call succeeds. -/
def wOk : World :=
  { decode := fun _ => .ok cImg
    fileOk := true
    download := .ok ()
    loadModel := .ok cModel
    dbWrite := .ok () }

/-- Like wOk, but the Firestore write raises. -/
def wDbFail : World := { wOk with dbWrite := .error "db down" }

/-- A world whose decode fails on the byte string [0] but succeeds
otherwise, and whose model load always fails. -/
def wC8 : World :=
  { decode := fun bytes =>
      if bytes = [0] then .error "cannot identify image file" else .ok cImg
    fileOk := true
    download := .ok ()
    loadModel := .error "Unable to open file"
    dbWrite := .ok () }

/-- Environment with a configured Firestore client. -/
def envDB : Env := ⟨true⟩

/-- Environment with persistence unconfigured (db is None). -/
def envNoDB : Env := ⟨false⟩

/-- Cold process state: _model not yet loaded. -/
def s0 : ProcState := ⟨none⟩

/-- Warm process state: _model memoized. -/
def sLoaded : ProcState := ⟨some cModel⟩

/-- A POST of an image with uid alice. -/
def reqAlice : Request := ⟨"POST", "/predict", [("image", [0])], [("uid", "alice")]⟩

/-- A POST of an image with no uid query parameter. -/
def reqAnon : Request := ⟨"POST", "/predict", [("image", [0])], []⟩

/-- A POST of an image with uid present but equal to the empty string, as
the entry form submits when no uid was forwarded. -/
def reqEmptyUid : Request := ⟨"POST", "/predict", [("image", [0])], [("uid", "")]⟩

/-- A POST with no multipart image field at all. -/
def reqNoFile : Request := ⟨"POST", "/predict", [], []⟩

/-- A GET on the classify endpoint. -/
def reqGetPredict : Request := ⟨"GET", "/predict", [], [("uid", "alice")]⟩

/-- A POST whose image bytes [1] decode fine under wC8. -/
def reqGoodImage : Request := ⟨"POST", "/predict", [("image", [1])], []⟩

/-! ### Helper lemmas -/

theorem argmaxAux_lt (xs : List ℚ) : ∀ (best : ℚ) (i bestIdx : Nat),
    bestIdx < i → argmaxAux xs best i bestIdx < i + xs.length := by
  induction xs with
  | nil =>
    intro best i bestIdx h
    simpa [argmaxAux] using h
  | cons x xs ih =>
    intro best i bestIdx h
    simp only [argmaxAux, List.length_cons]
    split
    · have := ih x (i + 1) i (Nat.lt_succ_self i)
      omega
    · have := ih best (i + 1) bestIdx (Nat.lt_succ_of_lt h)
      omega

theorem argmaxIdx_lt_length (l : List ℚ) (h : l ≠ []) : argmaxIdx l < l.length := by
  cases l with
  | nil => exact absurd rfl h
  | cons x xs =>
    have := argmaxAux_lt xs x 1 0 Nat.one_pos
    simp only [argmaxIdx, List.length_cons]
    omega

theorem pxToFloats_mem_unit (p : Px) : ∀ v ∈ pxToFloats p, 0 ≤ v ∧ v ≤ 1 := by
  have hb : ∀ c : Fin 256, 0 ≤ (c.val : ℚ) / 255 ∧ (c.val : ℚ) / 255 ≤ 1 := by
    intro c
    constructor
    · positivity
    · rw [div_le_one (by norm_num)]
      exact_mod_cast Nat.lt_succ_iff.mp c.isLt
  intro v hv
  simp only [pxToFloats, List.mem_cons, List.not_mem_nil, or_false] at hv
  rcases hv with rfl | rfl | rfl
  · exact hb p.r
  · exact hb p.g
  · exact hb p.b

theorem labelOf_ok_mem (preds : List ℚ) (l : String) (h : labelOf preds = .ok l) :
    l ∈ labels := by
  unfold labelOf at h
  split at h
  · exact absurd h (by simp)
  · split at h
    next l0 hget =>
      cases h
      exact List.get?_mem hget
    next => exact absurd h (by simp)

theorem ensure_model_file_no_write (w : World) :
    Action.write ∉ (ensure_model_file w).2 := by
  unfold ensure_model_file
  split
  · simp
  · split <;> simp

theorem get_model_no_write (w : World) (s : ProcState) :
    Action.write ∉ (get_model w s).2.2 := by
  unfold get_model
  split
  · simp
  · split
    next e acts0 he =>
      have hw := ensure_model_file_no_write w
      rw [he] at hw
      simpa using hw
    next u acts0 he =>
      have hw := ensure_model_file_no_write w
      rw [he] at hw
      split
      · simpa using hw
      · simpa using hw

theorem get_model_ok_model (w : World) (s s1 : ProcState) (m : Model)
    (acts : List Action) (h : get_model w s = (.ok m, s1, acts)) :
    s1.model = some m := by
  unfold get_model at h
  split at h
  next m0 hs =>
    simp only [Prod.mk.injEq, Except.ok.injEq] at h
    obtain ⟨rfl, rfl, rfl⟩ := h
    exact hs
  next hs =>
    split at h
    next e acts0 he => simp at h
    next u acts0 he =>
      split at h
      next m0 hl =>
        simp only [Prod.mk.injEq, Except.ok.injEq] at h
        obtain ⟨rfl, rfl, rfl⟩ := h
        rfl
      next e hl => simp at h

theorem get_model_of_cached (w : World) (s : ProcState) (m : Model)
    (hs : s.model = some m) : get_model w s = (.ok m, s, []) := by
  unfold get_model
  rw [hs]

theorem errorPage_eq_iff (e1 e2 : String) :
    errorPage e1 = errorPage e2 ↔ e1 = e2 := by
  constructor
  · intro h
    have hd : (errorPage e1).data = (errorPage e2).data := by rw [h]
    have hx : ("<h3>Error: ".data ++ e1.data) ++
          "</h3><br><a href=\x27/\x27>Back</a>".data
        = ("<h3>Error: ".data ++ e2.data) ++
          "</h3><br><a href=\x27/\x27>Back</a>".data := hd
    have h2 := List.append_cancel_left (List.append_cancel_right hx)
    exact String.toList_inj.mp h2
  · intro h
    rw [h]

theorem errorPage_has_backAnchor (e : String) :
    ∃ p, errorPage e = p ++ backAnchor := by
  refine ⟨"<h3>Error: " ++ e ++ "</h3><br>", String.toList_inj.mp ?_⟩
  show ("<h3>Error: ".data ++ e.data) ++ "</h3><br><a href=\x27/\x27>Back</a>".data
    = (("<h3>Error: ".data ++ e.data) ++ "</h3><br>".data) ++ backAnchor.data
  rw [List.append_assoc ("<h3>Error: ".data ++ e.data) "</h3><br>".data backAnchor.data]
  congr 1

theorem predict_write_mem (env : Env) (w : World) (s : ProcState) (req : Request)
    (h : Action.write ∈ (predict env w s req).2.2) :
    env.db = true ∧ truthyUid (req.args.lookup "uid") = true := by
  simp only [predict] at h
  split at h
  · simp at h
  next bytes hf =>
    split at h
    next e hd => simp at h
    next img0 hd =>
      split at h
      next e s1 acts hm =>
        have hnw := get_model_no_write w s
        rw [hm] at hnw
        simp only [List.mem_cons] at h
        simp at h
        exact absurd h hnw
      next m s1 acts hm =>
        have hnw := get_model_no_write w s
        rw [hm] at hnw
        simp only at hnw
        split at h
        next e hp =>
          simp at h
          exact absurd h hnw
        next preds hp =>
          split at h
          next e hl =>
            simp at h
            exact absurd h hnw
          next lbl hl =>
            split at h
            next hcond =>
              simpa [Bool.and_eq_true] using hcond
            next hcond =>
              simp at h
              exact absurd h hnw

/-! ### Claim theorems -/

/-- C5: for every decodable image, the Image Normalizer (preprocess_image)
yields a tensor of shape (1, 224, 224, 3) all of whose values lie in the
closed interval [0, 1]. -/
theorem C5_preprocess_shape_and_range (img : Img) :
    (preprocess_image img).length = 1 ∧
    ∀ batch ∈ preprocess_image img,
      batch.length = 224 ∧
      ∀ row ∈ batch,
        row.length = 224 ∧
        ∀ p ∈ row,
          p.length = 3 ∧ ∀ v ∈ p, 0 ≤ v ∧ v ≤ 1 := by
  refine ⟨rfl, ?_⟩
  intro batch hb
  simp only [preprocess_image, List.mem_singleton] at hb
  subst hb
  refine ⟨by simp, ?_⟩
  intro row hr
  simp only [List.mem_map, List.mem_range] at hr
  obtain ⟨i, hi, rfl⟩ := hr
  refine ⟨by simp, ?_⟩
  intro p hp
  simp only [List.mem_map, List.mem_range] at hp
  obtain ⟨j, hj, rfl⟩ := hp
  exact ⟨rfl, pxToFloats_mem_unit _⟩

/-- C6: for every length-3 classifier output vector, the label is obtained
by indexing the fixed table with the argmax index, and it always lies in the
closed set Dry, Normal, Oily. -/
theorem C6_label_argmax_closed_set (preds : List ℚ) (h : preds.length = 3) :
    labelOf preds = .ok (labels.getD (argmaxIdx preds) "") ∧
    ∃ l, labelOf preds = .ok l ∧ (l = "Dry" ∨ l = "Normal" ∨ l = "Oily") := by
  have hne : preds ≠ [] := by
    intro h0
    rw [h0] at h
    simp at h
  have hempty : preds.isEmpty = false := by
    cases preds with
    | nil => simp at h
    | cons a l => rfl
  have hlt : argmaxIdx preds < 3 := by
    have := argmaxIdx_lt_length preds hne
    omega
  have h3 : argmaxIdx preds = 0 ∨ argmaxIdx preds = 1 ∨ argmaxIdx preds = 2 := by
    omega
  rcases h3 with hk | hk | hk <;>
    simp [labelOf, hempty, hk, labels]

/-- Witness for C6 at the concrete output vector [0, 1, 0]. -/
theorem C6_label_argmax_closed_set_witness :
    labelOf [0, 1, 0] = .ok (labels.getD (argmaxIdx [0, 1, 0]) "") ∧
    ∃ l, labelOf [0, 1, 0] = .ok l ∧ (l = "Dry" ∨ l = "Normal" ∨ l = "Oily") :=
  C6_label_argmax_closed_set [0, 1, 0] rfl

/-- C9: once a call to get_model has succeeded and memoized the handle, every
subsequent call — under any external conditions whatsoever — returns the
same handle, leaves the process state unchanged, and performs no file check,
no download, and no load. -/
theorem C9_model_loaded_once (w w2 : World) (s s1 : ProcState) (m : Model)
    (acts : List Action) (h : get_model w s = (.ok m, s1, acts)) :
    get_model w2 s1 = (.ok m, s1, []) :=
  get_model_of_cached w2 s1 m (get_model_ok_model w s s1 m acts h)

/-- Witness for C9: a cold call under wOk loads cModel; a second call, even
under the different world wDbFail, returns the memoized handle with an empty
action trace. -/
theorem C9_model_loaded_once_witness :
    get_model wDbFail sLoaded = (.ok cModel, sLoaded, []) :=
  C9_model_loaded_once wOk wDbFail s0 sLoaded cModel [.checkFile, .load] rfl

/-- C10: a uid query parameter equal to the empty string is treated like an
absent user identifier: the POST handler performs no persistence write,
whatever the backend configuration and external outcomes. -/
theorem C10_empty_uid_no_write (env : Env) (w : World) (s : ProcState)
    (req : Request) (h : req.args.lookup "uid" = some "") :
    Action.write ∉ (predict env w s req).2.2 := by
  intro hmem
  have ht := (predict_write_mem env w s req hmem).2
  rw [h] at ht
  simp [truthyUid] at ht

/-- Witness for C10: POSTing a decodable image with uid present but empty,
against a configured backend, performs no persistence write. -/
theorem C10_empty_uid_no_write_witness :
    Action.write ∉ (predict envDB wOk s0 reqEmptyUid).2.2 :=
  C10_empty_uid_no_write envDB wOk s0 reqEmptyUid rfl

/-- C2 counterexample: a POST whose multipart image field is absent gets the
plain text response No image uploaded with status 400 — not a redirect to
the entry form. -/
theorem C2_counterexample :
    (predict envDB wOk s0 reqNoFile).1 = ⟨400, "No image uploaded"⟩ ∧
    isRedirect (predict envDB wOk s0 reqNoFile).1 = false :=
  ⟨rfl, rfl⟩

/-- C2 (amended): when the multipart image field is absent the handler
returns the 400 text response No image uploaded — an error response, not a
redirect — performing no preprocessing and no inference (empty action
trace); an empty-but-present field instead enters the pipeline, where
decoding is attempted and fails. -/
theorem C2_missing_field_short_circuits (env : Env) (w : World)
    (s : ProcState) (req : Request) (h : req.files.lookup "image" = none) :
    predict env w s req = (⟨400, "No image uploaded"⟩, s, []) ∧
    isRedirect (predict env w s req).1 = false := by
  have hp : predict env w s req = (⟨400, "No image uploaded"⟩, s, []) := by
    simp only [predict, h]
  refine ⟨hp, ?_⟩
  rw [hp]
  rfl

/-- Witness for the amended C2 at a concrete fieldless POST. -/
theorem C2_missing_field_short_circuits_witness :
    predict envDB wOk s0 reqNoFile = (⟨400, "No image uploaded"⟩, s0, []) ∧
    isRedirect (predict envDB wOk s0 reqNoFile).1 = false :=
  C2_missing_field_short_circuits envDB wOk s0 reqNoFile rfl

/-- C3 counterexample: a GET on the classify endpoint is answered with 405
Method Not Allowed — not a redirect to the entry form. -/
theorem C3_counterexample :
    (dispatch envDB wOk s0 reqGetPredict).1 = ⟨405, "Method Not Allowed"⟩ ∧
    isRedirect (dispatch envDB wOk s0 reqGetPredict).1 = false :=
  ⟨rfl, rfl⟩

/-- C3 (amended): the classify endpoint registers only the POST method, so
any GET to it is rejected by routing with 405 Method Not Allowed and an
empty action trace; no redirect is issued and the handler body never runs. -/
theorem C3_get_predict_method_not_allowed (env : Env) (w : World)
    (s : ProcState) (req : Request) (hpath : req.path = "/predict")
    (hmethod : req.method = "GET") :
    dispatch env w s req = (⟨405, "Method Not Allowed"⟩, s, []) ∧
    isRedirect (dispatch env w s req).1 = false := by
  have hd : dispatch env w s req = (⟨405, "Method Not Allowed"⟩, s, []) := by
    rw [dispatch, hpath, hmethod]
    rw [if_neg (by decide), if_neg (by decide), if_pos rfl, if_neg (by decide)]
  refine ⟨hd, ?_⟩
  rw [hd]
  rfl

/-- Witness for the amended C3 at a concrete GET on /predict. -/
theorem C3_get_predict_method_not_allowed_witness :
    dispatch envDB wOk s0 reqGetPredict = (⟨405, "Method Not Allowed"⟩, s0, []) ∧
    isRedirect (dispatch envDB wOk s0 reqGetPredict).1 = false :=
  C3_get_predict_method_not_allowed envDB wOk s0 reqGetPredict rfl rfl

/-- C4: on a request whose pipeline reaches the persistence point (decode,
model acquisition, inference and labelling all succeed), a persistence write
is attempted iff a configured backend exists and a non-empty user identifier
was supplied; when either is missing the write is skipped and the
classification result page is still rendered. -/
theorem C4_write_iff_db_and_uid (env : Env) (w : World) (s : ProcState)
    (req : Request) (bytes : List Nat) (img0 : Img) (m : Model)
    (s1 : ProcState) (acts : List Action) (preds : List ℚ) (lbl : String)
    (hf : req.files.lookup "image" = some bytes)
    (hd : w.decode bytes = .ok img0)
    (hm : get_model w s = (.ok m, s1, acts))
    (hp : m.predict (preprocess_image img0) = .ok preds)
    (hl : labelOf preds = .ok lbl) :
    (Action.write ∈ (predict env w s req).2.2 ↔
      env.db = true ∧ ∃ u, req.args.lookup "uid" = some u ∧ u ≠ "") ∧
    ((env.db = false ∨ req.args.lookup "uid" = none ∨
        req.args.lookup "uid" = some "") →
      (predict env w s req).1 = ⟨200, resultPage lbl (req.args.lookup "uid")⟩) := by
  have hnw := get_model_no_write w s
  rw [hm] at hnw
  simp only at hnw
  have htruthy : truthyUid (req.args.lookup "uid") = true ↔
      ∃ u, req.args.lookup "uid" = some u ∧ u ≠ "" := by
    cases hu : req.args.lookup "uid" with
    | none => simp [truthyUid]
    | some u => simp [truthyUid]
  have hred : predict env w s req =
      if env.db && truthyUid (req.args.lookup "uid") then
        match w.dbWrite with
        | .error e =>
          (⟨200, errorPage e⟩, s1, .decode :: acts ++ [.infer, .write])
        | .ok _ =>
          (⟨200, resultPage lbl (req.args.lookup "uid")⟩, s1,
            .decode :: acts ++ [.infer, .write])
      else
        (⟨200, resultPage lbl (req.args.lookup "uid")⟩, s1,
          .decode :: acts ++ [.infer]) := by
    simp only [predict, hf, hd, hm, hp, hl]
  constructor
  · rw [hred]
    split
    next hcond =>
      rw [Bool.and_eq_true] at hcond
      constructor
      · intro _
        exact ⟨hcond.1, htruthy.mp hcond.2⟩
      · intro _
        cases w.dbWrite <;> simp
    next hcond =>
      constructor
      · intro hmem
        simp only [List.mem_cons, List.mem_append, List.mem_singleton] at hmem
        rcases hmem with h1 | h1 | h1 <;> simp_all
      · rintro ⟨hdb, hu⟩
        rw [hdb, htruthy.mpr hu] at hcond
        simp at hcond
  · intro hcase
    have hfalse : (env.db && truthyUid (req.args.lookup "uid")) = false := by
      rcases hcase with h1 | h1 | h1 <;> simp [h1, truthyUid]
    rw [hred, hfalse]
    simp

/-- Witness for C4 at a concrete healthy request with a configured backend
and uid alice. -/
theorem C4_write_iff_db_and_uid_witness :
    (Action.write ∈ (predict envDB wOk s0 reqAlice).2.2 ↔
      envDB.db = true ∧ ∃ u, reqAlice.args.lookup "uid" = some u ∧ u ≠ "") ∧
    ((envDB.db = false ∨ reqAlice.args.lookup "uid" = none ∨
        reqAlice.args.lookup "uid" = some "") →
      (predict envDB wOk s0 reqAlice).1 =
        ⟨200, resultPage "Dry" (reqAlice.args.lookup "uid")⟩) :=
  C4_write_iff_db_and_uid envDB wOk s0 reqAlice [0] cImg cModel sLoaded
    [.checkFile, .load] [1, 0, 0] "Dry" rfl rfl rfl rfl rfl

/-- C7: whenever a POST supplies the image field, the handler returns either
the result card with a label from the fixed table, or the generic error page
ending in the Back anchor to the entry form; every pipeline failure is
caught and no exception escapes the handler. -/
theorem C7_pipeline_exceptions_caught (env : Env) (w : World) (s : ProcState)
    (req : Request) (bytes : List Nat)
    (hf : req.files.lookup "image" = some bytes) :
    (∃ e, (predict env w s req).1 = ⟨200, errorPage e⟩ ∧
      ∃ p, errorPage e = p ++ backAnchor) ∨
    (∃ lbl, lbl ∈ labels ∧
      (predict env w s req).1 =
        ⟨200, resultPage lbl (req.args.lookup "uid")⟩) := by
  cases hd : w.decode bytes with
  | error e =>
    refine .inl ⟨e, ?_, errorPage_has_backAnchor e⟩
    simp only [predict, hf, hd]
  | ok img0 =>
    rcases hm : get_model w s with ⟨res, s1, acts⟩
    cases res with
    | error e =>
      refine .inl ⟨e, ?_, errorPage_has_backAnchor e⟩
      simp only [predict, hf, hd, hm]
    | ok m =>
      cases hp : m.predict (preprocess_image img0) with
      | error e =>
        refine .inl ⟨e, ?_, errorPage_has_backAnchor e⟩
        simp only [predict, hf, hd, hm, hp]
      | ok preds =>
        cases hl : labelOf preds with
        | error e =>
          refine .inl ⟨e, ?_, errorPage_has_backAnchor e⟩
          simp only [predict, hf, hd, hm, hp, hl]
        | ok lbl =>
          have hmem := labelOf_ok_mem preds lbl hl
          cases hcond : env.db && truthyUid (req.args.lookup "uid") with
          | false =>
            refine .inr ⟨lbl, hmem, ?_⟩
            simp [predict, hf, hd, hm, hp, hl, hcond]
          | true =>
            cases hw : w.dbWrite with
            | error e =>
              refine .inl ⟨e, ?_, errorPage_has_backAnchor e⟩
              simp [predict, hf, hd, hm, hp, hl, hcond, hw]
            | ok u =>
              refine .inr ⟨lbl, hmem, ?_⟩
              simp [predict, hf, hd, hm, hp, hl, hcond, hw]

/-- Witness for C7 at a concrete request whose decode fails. -/
theorem C7_pipeline_exceptions_caught_witness :
    (∃ e, (predict envDB wC8 s0 reqAnon).1 = ⟨200, errorPage e⟩ ∧
      ∃ p, errorPage e = p ++ backAnchor) ∨
    (∃ lbl, lbl ∈ labels ∧
      (predict envDB wC8 s0 reqAnon).1 =
        ⟨200, resultPage lbl (reqAnon.args.lookup "uid")⟩) :=
  C7_pipeline_exceptions_caught envDB wC8 s0 reqAnon [0] rfl

/-- C1 counterexample: with a decodable image, a configured backend and a
non-empty uid, a raising persistence write makes the handler return the
generic error page instead of the classification result card, which the
identical request with a healthy backend does return. -/
theorem C1_counterexample :
    (predict envDB wDbFail s0 reqAlice).1 = ⟨200, errorPage "db down"⟩ ∧
    (predict envDB wOk s0 reqAlice).1 =
      ⟨200, resultPage "Dry" (some "alice")⟩ ∧
    errorPage "db down" ≠ resultPage "Dry" (some "alice") := by
  refine ⟨rfl, rfl, ?_⟩
  decide

/-- C1 (amended): a failing persistence write does not escape as a raw
server fault — the try/except catches it — but the rendered response is the
generic error page (with its Back anchor), not the classification result
page: the write failure does abort the result rendering. -/
theorem C1_persistence_failure_yields_error_page (env : Env) (w : World)
    (s : ProcState) (req : Request) (bytes : List Nat) (img0 : Img)
    (m : Model) (s1 : ProcState) (acts : List Action) (preds : List ℚ)
    (lbl : String) (e : String)
    (hf : req.files.lookup "image" = some bytes)
    (hd : w.decode bytes = .ok img0)
    (hm : get_model w s = (.ok m, s1, acts))
    (hp : m.predict (preprocess_image img0) = .ok preds)
    (hl : labelOf preds = .ok lbl)
    (hdb : env.db = true)
    (hu : truthyUid (req.args.lookup "uid") = true)
    (hw : w.dbWrite = .error e) :
    (predict env w s req).1 = ⟨200, errorPage e⟩ ∧
    ∃ p, errorPage e = p ++ backAnchor := by
  refine ⟨?_, errorPage_has_backAnchor e⟩
  simp only [predict, hf, hd, hm, hp, hl, hdb, hu, hw, Bool.and_self, if_true]

/-- Witness for the amended C1 at the concrete request with uid alice and a
raising Firestore write. -/
theorem C1_persistence_failure_yields_error_page_witness :
    (predict envDB wDbFail s0 reqAlice).1 = ⟨200, errorPage "db down"⟩ ∧
    ∃ p, errorPage "db down" = p ++ backAnchor :=
  C1_persistence_failure_yields_error_page envDB wDbFail s0 reqAlice [0] cImg
    cModel sLoaded [.checkFile, .load] [1, 0, 0] "Dry" "db down"
    rfl rfl rfl rfl rfl rfl rfl rfl

/-- C8 counterexample: under the same world wC8, the request whose bytes do
not decode and the request whose decode succeeds but whose model load fails
render different error pages — the interpolated exception text tells the two
failure kinds apart. -/
theorem C8_counterexample :
    (predict envDB wC8 s0 reqAnon).1 =
      ⟨200, errorPage "cannot identify image file"⟩ ∧
    (predict envDB wC8 s0 reqGoodImage).1 =
      ⟨200, errorPage "Unable to open file"⟩ ∧
    (predict envDB wC8 s0 reqAnon).1 ≠ (predict envDB wC8 s0 reqGoodImage).1 := by
  refine ⟨rfl, rfl, ?_⟩
  decide

/-- C8 (amended): an undecodable-image failure and an artifact
acquisition/load failure are both rendered through the same generic error
template, but the template interpolates the exception message, so the two
error pages are identical exactly when the two messages are equal — distinct
messages make the failure kinds distinguishable to the end user. -/
theorem C8_error_pages_equal_iff_messages_equal (env : Env) (w : World)
    (s : ProcState) (reqA reqB : Request) (bytesA bytesB : List Nat)
    (e1 e2 : String) (imgB : Img) (s1 : ProcState) (acts : List Action)
    (hfA : reqA.files.lookup "image" = some bytesA)
    (hdA : w.decode bytesA = .error e1)
    (hfB : reqB.files.lookup "image" = some bytesB)
    (hdB : w.decode bytesB = .ok imgB)
    (hmB : get_model w s = (.error e2, s1, acts)) :
    (predict env w s reqA).1 = ⟨200, errorPage e1⟩ ∧
    (predict env w s reqB).1 = ⟨200, errorPage e2⟩ ∧
    ((predict env w s reqA).1 = (predict env w s reqB).1 ↔ e1 = e2) := by
  have hA : (predict env w s reqA).1 = ⟨200, errorPage e1⟩ := by
    simp only [predict, hfA, hdA]
  have hB : (predict env w s reqB).1 = ⟨200, errorPage e2⟩ := by
    simp only [predict, hfB, hdB, hmB]
  refine ⟨hA, hB, ?_⟩
  rw [hA, hB]
  constructor
  · intro h
    exact (errorPage_eq_iff e1 e2).mp (congrArg Response.body h)
  · intro h
    rw [h]

/-- Witness for the amended C8 at the two concrete failing requests. -/
theorem C8_error_pages_equal_iff_messages_equal_witness :
    (predict envDB wC8 s0 reqAnon).1 =
      ⟨200, errorPage "cannot identify image file"⟩ ∧
    (predict envDB wC8 s0 reqGoodImage).1 =
      ⟨200, errorPage "Unable to open file"⟩ ∧
    ((predict envDB wC8 s0 reqAnon).1 = (predict envDB wC8 s0 reqGoodImage).1 ↔
      "cannot identify image file" = "Unable to open file") :=
  C8_error_pages_equal_iff_messages_equal envDB wC8 s0 reqAnon reqGoodImage
    [0] [1] "cannot identify image file" "Unable to open file" cImg s0
    [.checkFile, .load] rfl rfl rfl rfl rfl

end Skin
